import Mathlib

set_option linter.dupNamespace false

/-!
# go-xverifyapi: a shallow embedding of `xverify.go`

The client turns typed calls into HTTP GET requests and decodes the JSON answer.
The embedding keeps the functions of `xverify.go` under their own names.

What the standard library does is kept apart from what the client does:

* a Go `map[string]string` is an association list with at most one entry per key
  as far as `get?` and `set` can tell;
* the client's base URL is held as `net/url` reads it: the outcome of `url.Parse`
  on the configured string (an error, or the values of its query string) and, for
  every service path appended to it, what `url.Parse` reads back from the URL that
  is printed for `http.NewRequest` (an error, or scheme, host and path);
* a response body is held as the two things the client ever reads from it: its
  length, and the document `encoding/json` reads from its bytes (or the error it
  reports);
* `c.httpClient` is a function from the request to the reply, and every call of
  `callService` also returns the list of pipeline steps it performed, so that
  "no request was issued" and "the body was never decoded" are statements about
  that list.
-/

namespace XVerify

/-! ## Go maps -/

/-- Go map with string keys, as an association list. -/
abbrev GoMap (V : Type) := List (String × V)

namespace GoMap

variable {V : Type}

/-- Map lookup with the comma-ok result: the value under the first entry for `k`. -/
def get? : GoMap V → String → Option V
  | [], _ => none
  | (k', v) :: rest, k => if k' = k then some v else get? rest k

/-- Map assignment `m[k] = v`: the entry for `k` is overwritten, or added. -/
def set : GoMap V → String → V → GoMap V
  | [], k, v => [(k, v)]
  | (k', v') :: rest, k, v => if k' = k then (k, v) :: rest else (k', v') :: set rest k v

/-- The keys present in the map. -/
def keys (m : GoMap V) : List String := m.map Prod.fst

end GoMap

/-- Type of caller parameters, `map[string]string`. -/
abbrev Params := GoMap String

/-- Type `url.Values`, `map[string][]string`. -/
abbrev Values := GoMap (List String)

/-- Method `url.Values.Get`: the first value under the key, or the empty string. -/
def Values.Get (v : Values) (key : String) : String :=
  match GoMap.get? v key with
  | some (x :: _) => x
  | _ => ""

/-- Method `url.Values.Set`: the key now holds exactly the one value. -/
def Values.Set (v : Values) (key value : String) : Values :=
  GoMap.set v key [value]

/-! ## Errors -/

/-- Error values. The first four are the package-level variables of `xverify.go`,
compared by identity; the others are errors made elsewhere: by `net/url`, by
`net/http` (the transport, or reading the body), by `encoding/json`, and by a
call of `errors.New`. An error made elsewhere is never one of the four variables. -/
inductive Err
  | ErrServiceDoesNotExist
  | ErrEmptyResponse
  | ErrPhoneCallRequiredFields
  | ErrResponseHadEmptyStructure
  | url (msg : String)
  | http (msg : String)
  | json (msg : String)
  | new (msg : String)
  deriving DecidableEq, Repr

/-- Method `error.Error()`: the text of the error. -/
def Err.Error : Err → String
  | .ErrServiceDoesNotExist => "Service does not exist"
  | .ErrEmptyResponse => "Empty body response received from service"
  | .ErrPhoneCallRequiredFields => "Code, Country Code and Code should be filled"
  | .ErrResponseHadEmptyStructure => "Could not unmarshall correctly the response"
  | .url msg => msg
  | .http msg => msg
  | .json msg => msg
  | .new msg => msg

/-! ## Service types and endpoints -/

/-- Type `ServiceType`, a Go `int`. -/
abbrev ServiceType := Int

def Phone : ServiceType := 1
def Emails : ServiceType := 2
def Address : ServiceType := 3
def Scoring : ServiceType := 4
def AllServices : ServiceType := 5
def PhonePlaceCall : ServiceType := 6
def PhoneConfirmCode : ServiceType := 7

/-- The `Endpoints` table, read with the comma-ok form: a missing key gives the
zero value `""` and `false`. -/
def Endpoints (service : ServiceType) : String × Bool :=
  if service = Phone then ("/phone/verify", true)
  else if service = Emails then ("/email/verify", true)
  else if service = Address then ("/address/verify", true)
  else if service = Scoring then ("/scoring/verify", true)
  else if service = AllServices then ("/allservices/verify", true)
  else if service = PhonePlaceCall then ("/phoneconfirm/placecall/", true)
  else if service = PhoneConfirmCode then ("/phoneconfirm/verifycode", true)
  else ("", false)

/-! ## Responses -/

/-- The anonymous struct under `Response.AutoCorrect`. -/
structure AutoCorrect where
  Corrected : String := ""
  Address : String := ""
  deriving DecidableEq, Repr

/-- Type `Response`; the defaults are Go's zero values. -/
structure Response where
  Address : String := ""
  Syntax : String := ""
  Handle : String := ""
  Domain : String := ""
  Error : String := ""
  Status : String := ""
  AutoCorrect : AutoCorrect := {}
  Message : String := ""
  Duration : String := ""
  CatchAll : String := ""
  Responsecode : Int := 0
  AreaCode : Int := 0
  Prefix : Int := 0
  Sufix : Int := 0
  TransactionNumber : String := ""
  deriving DecidableEq, Repr

/-! ## JSON documents (`encoding/json`) -/

/-- A JSON document as `json.Unmarshal` reads it into an `interface{}`. A number is
kept as the text `json.Marshal` prints for the `float64` it was read into (`200`,
`0.5`, `1e+21`). The members of an object are the entries of a Go map; the order of
the list is the order in which a `range` statement visits them, which Go leaves
open. -/
inductive JSON
  | null
  | bool (b : Bool)
  | num (text : String)
  | str (s : String)
  | arr (items : List JSON)
  | obj (members : List (String × JSON))

/-- The word `encoding/json` uses for the kind of a value in its type errors. -/
def JSON.kind : JSON → String
  | .null => "null"
  | .bool _ => "bool"
  | .num _ => "number"
  | .str _ => "string"
  | .arr _ => "array"
  | .obj _ => "object"

/-- The `*json.UnmarshalTypeError` for a value of the wrong kind. For a field of a
struct the text leaves out the name of the field; `parseBody` replaces such an
error before a caller can read it. -/
def typeError (v : JSON) (goType : String) : Err :=
  .json ("json: cannot unmarshal " ++ v.kind ++ " into Go value of type " ++ goType)

/-- Function `json.Unmarshal(body, &wrapper)` for `wrapper map[string]interface{}`,
on a body that is the text of `doc`: `null` leaves the nil map (`none`), an object
fills the map, any other document is a type error. -/
def unmarshalWrapper (doc : JSON) : Except Err (Option (List (String × JSON))) :=
  match doc with
  | .null => .ok none
  | .obj members => .ok (some members)
  | v => .error (typeError v "map[string]interface {}")

/-- Function `json.Marshal` on a value that `json.Unmarshal` produced: it cannot
fail. The bytes written are represented by the document they spell; the members of
every object are written in key order, which `sortMembers` provides where the
bytes are read back. -/
def jsonMarshal (v : JSON) : Except Err JSON := .ok v

/-- The order of two keys as `json.Marshal` sorts them: character by character,
a proper initial part first. -/
def keyLess : List Char → List Char → Bool
  | _, [] => false
  | [], _ :: _ => true
  | a :: as, b :: bs => if a.toNat < b.toNat then true else if b.toNat < a.toNat then false
      else keyLess as bs

/-- Insertion of one member into a list of members ordered by key. -/
def insertMember (m : String × JSON) : List (String × JSON) → List (String × JSON)
  | [] => [m]
  | x :: rest =>
    if keyLess x.1.toList m.1.toList then x :: insertMember m rest else m :: x :: rest

/-- The members in key order, as `json.Marshal` writes a map. -/
def sortMembers : List (String × JSON) → List (String × JSON)
  | [] => []
  | m :: rest => insertMember m (sortMembers rest)

/-- Simple case folding of one character, as far as it can reach an ASCII letter:
the capital letters, the long s (U+017F) and the Kelvin sign (U+212A). -/
def foldRune (c : Char) : Char :=
  if 'A' ≤ c ∧ c ≤ 'Z' then Char.ofNat (c.toNat + 32)
  else if c = 'ſ' then 's'
  else if c = 'K' then 'k'
  else c

/-- Function `bytes.EqualFold` between an ASCII field name and a key. -/
def equalFold (name key : String) : Bool :=
  name.toList.map foldRune = key.toList.map foldRune

/-- The struct field a key is stored in: the field of that exact name, else the
first field whose name equals the key under case folding, else none (the member
is skipped). -/
def findField {F : Type} (fields : List (String × F)) (key : String) : Option F :=
  match fields.find? (fun f => f.1 = key) with
  | some f => some f.2
  | none => (fields.find? (fun f => equalFold f.1 key)).map Prod.snd

/-- Function `strconv.ParseUint` on decimal digits, most significant first. -/
def parseDigits : List Char → Nat → Option Nat
  | [], acc => some acc
  | c :: rest, acc =>
    if '0' ≤ c ∧ c ≤ '9' then parseDigits rest (acc * 10 + (c.toNat - 48)) else none

/-- Function `strconv.ParseInt(s, 10, 64)` on the text of a JSON number: the text
must be an optional minus sign and digits, and the value must fit an `int64`. -/
def parseInt64 (s : String) : Option Int :=
  match s.toList with
  | [] => none
  | '-' :: [] => none
  | '-' :: ds =>
    match parseDigits ds 0 with
    | some n => if n ≤ 2 ^ 63 then some (-(n : Int)) else none
    | none => none
  | ds =>
    match parseDigits ds 0 with
    | some n => if n < 2 ^ 63 then some (n : Int) else none
    | none => none

/-- Storing a JSON value in a `string` field: `null` leaves the field as it is, a
string is stored, any other kind is a type error. -/
def storeString (cur : String) (v : JSON) : Except Err String :=
  match v with
  | .null => .ok cur
  | .str s => .ok s
  | v => .error (typeError v "string")

/-- Storing a JSON value in an `int` field: `null` leaves the field as it is, a
number is stored when its text is an integer that fits, anything else is a type
error. -/
def storeInt (cur : Int) (v : JSON) : Except Err Int :=
  match v with
  | .null => .ok cur
  | .num text =>
    match parseInt64 text with
    | some n => .ok n
    | none => .error (.json ("json: cannot unmarshal number " ++ text ++ " into Go value of type int"))
  | v => .error (typeError v "int")

/-- The JSON names of the fields of the anonymous `AutoCorrect` struct. -/
inductive AutoCorrectField
  | Corrected | Address

def autoCorrectFields : List (String × AutoCorrectField) :=
  [("corrected", .Corrected), ("address", .Address)]

/-- One member of the object stored into `AutoCorrect`. -/
def AutoCorrect.store (a : AutoCorrect) (m : String × JSON) : Except Err AutoCorrect :=
  match findField autoCorrectFields m.1 with
  | none => .ok a
  | some .Corrected => (storeString a.Corrected m.2).map (fun s => { a with Corrected := s })
  | some .Address => (storeString a.Address m.2).map (fun s => { a with Address := s })

/-- Storing a JSON value in the `AutoCorrect` struct field. -/
def storeAutoCorrect (cur : AutoCorrect) (v : JSON) : Except Err AutoCorrect :=
  match v with
  | .null => .ok cur
  | .obj members => (sortMembers members).foldlM AutoCorrect.store cur
  | v => .error (typeError v "struct")

/-- The fields of `Response`, by their JSON names (the tag, or the Go name where
there is no tag). -/
inductive ResponseField
  | Address | Syntax | Handle | Domain | Error | Status | AutoCorrect | Message
  | Duration | CatchAll | Responsecode | AreaCode | Prefix | Sufix | TransactionNumber

def responseFields : List (String × ResponseField) :=
  [("address", .Address), ("syntax", .Syntax), ("handle", .Handle), ("domain", .Domain),
   ("error", .Error), ("status", .Status), ("auto_correct", .AutoCorrect),
   ("message", .Message), ("duration", .Duration), ("catch_all", .CatchAll),
   ("responsecode", .Responsecode), ("AreaCode", .AreaCode), ("Prefix", .Prefix),
   ("Sufix", .Sufix), ("transaction_number", .TransactionNumber)]

/-- One member of the object stored into a `Response`. -/
def Response.store (r : Response) (m : String × JSON) : Except Err Response :=
  match findField responseFields m.1 with
  | none => .ok r
  | some .Address => (storeString r.Address m.2).map (fun s => { r with Address := s })
  | some .Syntax => (storeString r.Syntax m.2).map (fun s => { r with Syntax := s })
  | some .Handle => (storeString r.Handle m.2).map (fun s => { r with Handle := s })
  | some .Domain => (storeString r.Domain m.2).map (fun s => { r with Domain := s })
  | some .Error => (storeString r.Error m.2).map (fun s => { r with Error := s })
  | some .Status => (storeString r.Status m.2).map (fun s => { r with Status := s })
  | some .AutoCorrect =>
    (storeAutoCorrect r.AutoCorrect m.2).map (fun a => { r with AutoCorrect := a })
  | some .Message => (storeString r.Message m.2).map (fun s => { r with Message := s })
  | some .Duration => (storeString r.Duration m.2).map (fun s => { r with Duration := s })
  | some .CatchAll => (storeString r.CatchAll m.2).map (fun s => { r with CatchAll := s })
  | some .Responsecode =>
    (storeInt r.Responsecode m.2).map (fun n => { r with Responsecode := n })
  | some .AreaCode => (storeInt r.AreaCode m.2).map (fun n => { r with AreaCode := n })
  | some .Prefix => (storeInt r.Prefix m.2).map (fun n => { r with Prefix := n })
  | some .Sufix => (storeInt r.Sufix m.2).map (fun n => { r with Sufix := n })
  | some .TransactionNumber =>
    (storeString r.TransactionNumber m.2).map (fun s => { r with TransactionNumber := s })

/-- Function `json.Unmarshal(r, &response)` for a fresh `var response Response`, on
the bytes `json.Marshal` wrote for `v`. The decoder reports the first type error it
met; a `Response` filled so far is of no use to the caller, who drops it. -/
def unmarshalResponse (v : JSON) : Except Err Response :=
  match v with
  | .null => .ok {}
  | .obj members => (sortMembers members).foldlM Response.store {}
  | v => .error (typeError v "xverifyapi.Response")

/-! ## URLs, requests and the HTTP client -/

/-- Type `url.URL` in parsed form: scheme and host, the path, and the values of
the query string as `u.Query()` returns them. -/
structure URL where
  Scheme : String := ""
  Host : String := ""
  Path : String := ""
  Query : Values := []
  deriving DecidableEq, Repr

/-- Type `http.Request`, as far as the client fills it. -/
structure Request where
  Method : String
  URL : URL
  deriving DecidableEq, Repr

/-- A response body as the client reads it: `len` is `len(body)`, and `doc` is
what `encoding/json` makes of the bytes, the document they spell or the error it
reports (a syntax error, or a number that no `float64` holds). -/
structure Body where
  len : Nat
  doc : Except String JSON

/-- Type `http.Response`, as far as `doRequest` reads it: the status code, and
the outcome of `ioutil.ReadAll(resp.Body)`. -/
structure HTTPResponse where
  StatusCode : Int
  Body : Except String Body

/-- Field `httpClient`: what `c.httpClient.Do(request)` returns for a request, a
transport error or a response. -/
abbrev HTTPClient := Request → Except String HTTPResponse

/-- Scheme, host and path of a URL that `url.Parse` has read. -/
structure Location where
  Scheme : String := ""
  Host : String := ""
  Path : String := ""
  deriving DecidableEq, Repr

/-- A base URL that `url.Parse` accepts, as the client and `http.NewRequest` read
it. `Query` is `u.Query()`. `resolve path` is what `url.Parse` reads back, apart
from the query string, from the text `u.String()` once `path` has been appended to
`u.Path` and the query string has been set: the scheme, host and path the request
goes to, or the error of that second parse. -/
structure ParsedURL where
  Query : Values := []
  resolve : String → Except String Location

/-- Type `Client`. The field `baseURL` holds the configured string as `net/url`
reads it: the error of `url.Parse`, or the `ParsedURL`. -/
structure Client where
  baseURL : Except String ParsedURL
  apiKey : String
  domain : String
  httpClient : HTTPClient

/-- A service path behind a host: printing puts a slash before a path that does
not start with one. -/
def rooted (path : String) : String :=
  match path.toList with
  | [] => path
  | '/' :: _ => path
  | _ => "/" ++ path

/-- Constant `BaseURL`, `http://www.xverify.com/services`, as `net/url` reads it. -/
def BaseURL : Except String ParsedURL :=
  .ok { Query := [],
        resolve := fun path =>
          .ok { Scheme := "http", Host := "www.xverify.com", Path := "/services" ++ path } }

/-- Constructor `NewWith`. A nil `httpClient` is replaced by a fresh `http.Client`
with a timeout of two seconds; `network` stands for what that client does. -/
def NewWith (network : HTTPClient) (baseURL : Except String ParsedURL) (apiKey domain : String)
    (httpClient : Option HTTPClient) : Client :=
  { baseURL := baseURL, apiKey := apiKey, domain := domain,
    httpClient := match httpClient with
      | none => network
      | some h => h }

/-- Constructor `New`. -/
def New (network : HTTPClient) (apiKey domain : String) (httpClient : Option HTTPClient) :
    Client :=
  NewWith network BaseURL apiKey domain httpClient

/-- One step of the request pipeline, as recorded by `callService`. -/
inductive Step
  | buildRequest (method path : String) (params : Params)
  | doRequest (request : Request)
  | parseBody (body : Body)

/-- The method a step of the pipeline calls. -/
def Step.name : Step → String
  | .buildRequest _ _ _ => "buildRequest"
  | .doRequest _ => "doRequest"
  | .parseBody _ => "parseBody"

/-- What a public operation returns: the `*Response` (nil is `none`) and the
`error` (nil is `none`). -/
abbrev Result := Option Response × Option Err

/-- The text of a URL, as `url.Parse` reads it: the values of its query string,
and the outcome of the parse for the rest. -/
structure URLText where
  location : Except String Location
  Query : Values

/-- Method `buildURL`: the base URL is parsed, the service path is appended to its
path, and every parameter is `Set` over the values of its query string. Go leaves
the order of the `range` loop open; the entries are taken from the last to the
first, so that the entry `get?` reads is the one that stays. The result is the text
`u.String()`. -/
def Client.buildURL (c : Client) (path : String) (params : Params) : Except Err URLText :=
  match c.baseURL with
  | .error msg => .error (.url msg)
  | .ok u =>
    let queryString := params.foldr (fun kv q => Values.Set q kv.1 kv.2) u.Query
    .ok { location := u.resolve path, Query := queryString }

/-- The characters of an HTTP token (`httpguts.IsTokenRune`). -/
def isTokenRune (c : Char) : Bool :=
  ('0' ≤ c ∧ c ≤ '9') ∨ ('A' ≤ c ∧ c ≤ 'Z') ∨ ('a' ≤ c ∧ c ≤ 'z') ∨
    c ∈ "!#$%&'*+-.^_`|~".toList

/-- Function `validMethod` of `net/http`: a non-empty token. -/
def validMethod (method : String) : Bool :=
  method.toList ≠ [] ∧ method.toList.all isTokenRune

/-- Function `http.NewRequest` with a nil body: an empty method stands for `GET`,
a method that is no token is refused (the text of that error goes on with the
method in quotes), and the URL is parsed from its text. -/
def NewRequest (method : String) (url : URLText) : Except Err Request :=
  let method := if method = "" then "GET" else method
  if validMethod method then
    match url.location with
    | .error msg => .error (.url msg)
    | .ok u =>
      .ok { Method := method,
            URL := { Scheme := u.Scheme, Host := u.Host, Path := u.Path, Query := url.Query } }
  else .error (.http "net/http: invalid method")

/-- The three assignments at the head of `buildRequest`. -/
def Client.defaultParams (c : Client) (params : Params) : Params :=
  ((GoMap.set params "apikey" c.apiKey).set "domain" c.domain).set "type" "json"

/-- Method `buildRequest` (the body argument is always nil). -/
def Client.buildRequest (c : Client) (method path : String) (params : Params) :
    Except Err Request :=
  let params := c.defaultParams params
  match c.buildURL path params with
  | .error err => .error err
  | .ok URL => NewRequest method URL

/-- Method `doRequest`. -/
def Client.doRequest (c : Client) (request : Request) : Except Err (Int × Body) :=
  match c.httpClient request with
  | .error msg => .error (.http msg)
  | .ok resp =>
    match resp.Body with
    | .error msg => .error (.http msg)
    | .ok body => .ok (resp.StatusCode, body)

/-- Method `parseBody`. The `range` loop runs its body for the first entry of the
map only. -/
def Client.parseBody (_c : Client) (body : Body) : Result :=
  match body.doc with
  | .error msg => (none, some (.json msg))
  | .ok doc =>
    match unmarshalWrapper doc with
    | .error err => (none, some err)
    | .ok wrapper =>
      match wrapper.getD [] with
      | [] => (none, some .ErrResponseHadEmptyStructure)
      | (_, response) :: _ =>
        match jsonMarshal response with
        | .error err => (none, some err)
        | .ok r =>
          match unmarshalResponse r with
          | .ok response => (some response, none)
          | .error _ => (none, some .ErrResponseHadEmptyStructure)

/-- Method `callService`, with the steps it performed. On a parse failure the
`Response` it builds from the status code and the error text is assigned to `r`
and never read again. -/
def Client.callService (c : Client) (service : ServiceType) (params : Params) :
    Result × List Step :=
  let servicePath := (Endpoints service).1
  let built := Step.buildRequest "GET" servicePath params
  match c.buildRequest "GET" servicePath params with
  | .error err => ((none, some err), [built])
  | .ok request =>
    match c.doRequest request with
    | .error err => ((none, some err), [built, .doRequest request])
    | .ok (statusCode, body) =>
      if body.len = 0 then ((none, some .ErrEmptyResponse), [built, .doRequest request])
      else
        let steps := [built, .doRequest request, .parseBody body]
        match c.parseBody body with
        | (_, some err) =>
          let _r : Option Response := some
            { Responsecode := statusCode, Message := err.Error, Error := err.Error }
          ((none, some err), steps)
        | (r, none) => ((r, none), steps)

/-- Method `isValid`; `none` is the nil-pointer panic of `response.Status` on a nil
response with a nil error. -/
def Client.isValid (_c : Client) (response : Option Response) (err : Option Err) :
    Option (Bool × Option Err) :=
  match err with
  | some err =>
    match response with
    | some response => some (false, some (.new response.Message))
    | none => some (false, some err)
  | none =>
    match response with
    | some response => some (decide (response.Status = "valid"), none)
    | none => none

/-! ## Numbers and times as text (`strconv`, `time`) -/

/-- The decimal digits of `n`, most significant first, appended to `acc`; the
fuel bounds the number of digits. -/
def natDigits : Nat → Nat → List Char → List Char
  | 0, _, acc => acc
  | fuel + 1, n, acc =>
    let acc := Char.ofNat (48 + n % 10) :: acc
    if n < 10 then acc else natDigits fuel (n / 10) acc

/-- The decimal numeral of a natural number. -/
def natText (n : Nat) : String := String.mk (natDigits (n + 1) n [])

/-- The decimal numeral of `n`, padded with leading zeros to `width` digits. -/
def padText (n width : Nat) : String :=
  let ds := natDigits (n + 1) n []
  String.mk (List.replicate (width - ds.length) '0' ++ ds)

/-- Function `strconv.Itoa`. -/
def Itoa (n : Int) : String :=
  if n < 0 then "-" ++ natText n.natAbs else natText n.natAbs

/-- The quotient `a / b` rounded to the nearest integer, ties to even. -/
def roundHalfEven (a b : Nat) : Nat :=
  let q := a / b
  let r := a % b
  if 2 * r < b then q else if b < 2 * r then q + 1 else if q % 2 = 0 then q else q + 1

/-- A finite `float64`, as the exact rational it denotes: `num / den`, negated
when `neg` is set. -/
structure Float64 where
  neg : Bool
  num : Nat
  den : Nat
  deriving DecidableEq, Repr

/-- The number of binary digits of `n`; the fuel bounds that number. -/
def bitLen : Nat → Nat → Nat
  | 0, _ => 0
  | fuel + 1, n => if n = 0 then 0 else bitLen fuel (n / 2) + 1

/-- The `float64` nearest to the positive quotient `a / b` (53 significant bits,
ties to even). The quotients the client forms are far from the range where
`float64` overflows or loses bits to subnormal numbers. -/
def roundFloat64 (a b : Nat) : Nat × Nat :=
  if a = 0 then (0, 1)
  else
    let k : Int := (bitLen a a : Int) - (bitLen b b : Int) - 52
    let scaled : Int → Nat × Nat := fun e =>
      if 0 ≤ e then (a, b * 2 ^ e.toNat) else (a * 2 ^ (-e).toNat, b)
    let e := if (scaled k).1 / (scaled k).2 < 2 ^ 52 then k - 1 else k
    let m := roundHalfEven (scaled e).1 (scaled e).2
    if 0 ≤ e then (m * 2 ^ e.toNat, 1) else (m, 2 ^ (-e).toNat)

/-- Conversion `float64(n)` of an integer. -/
def Float64.ofInt (n : Int) : Float64 :=
  let r := roundFloat64 n.natAbs 1
  { neg := decide (n < 0), num := r.1, den := r.2 }

/-- Division of two `float64` values, the divisor not zero. -/
def Float64.div (x y : Float64) : Float64 :=
  let r := roundFloat64 (x.num * y.den) (x.den * y.num)
  { neg := x.neg != y.neg, num := r.1, den := r.2 }

/-- Addition of two `float64` values. -/
def Float64.add (x y : Float64) : Float64 :=
  let a := x.num * y.den
  let b := y.num * x.den
  let d := x.den * y.den
  if x.neg = y.neg then
    let r := roundFloat64 (a + b) d
    { neg := x.neg, num := r.1, den := r.2 }
  else if b ≤ a then
    let r := roundFloat64 (a - b) d
    { neg := x.neg, num := r.1, den := r.2 }
  else
    let r := roundFloat64 (b - a) d
    { neg := y.neg, num := r.1, den := r.2 }

/-- Type `time.Duration`, a count of nanoseconds. -/
abbrev Duration := Int

def Second : Duration := 1000000000
def Minute : Duration := 60 * Second

/-- Method `Duration.Seconds`: `float64(d / Second) + float64(d % Second)/1e9`,
with Go's truncating division. -/
def Duration.Seconds (d : Duration) : Float64 :=
  let sec := Int.tdiv d Second
  let nsec := Int.tmod d Second
  (Float64.ofInt sec).add ((Float64.ofInt nsec).div (Float64.ofInt 1000000000))

/-- The position of the decimal point of the positive value `num / den`: the
`dp` with `10 ^ (dp - 1) ≤ num / den < 10 ^ dp`, searched upwards from `dp`. -/
def decimalPoint : Nat → Nat → Nat → Int → Int
  | 0, _, _, dp => dp
  | fuel + 1, num, den, dp =>
    if num < den then
      if den ≤ num * 10 then dp else decimalPoint fuel (num * 10) den (dp - 1)
    else decimalPoint fuel num (den * 10) (dp + 1)

/-- Function `strconv.FormatFloat(f, 'G', 0, 64)` for a finite `f` that is not
zero. A precision of 0 asks for one significant digit: the value is rounded to one
digit (ties to even), and printed as that digit with an exponent when the exponent
is below -4 or at least 1, and in plain form otherwise. -/
def FormatFloatG0 (f : Float64) : String :=
  let dp0 := decimalPoint 700 f.num f.den 0
  let d0 :=
    if 1 ≤ dp0 then roundHalfEven f.num (f.den * 10 ^ (dp0 - 1).toNat)
    else roundHalfEven (f.num * 10 ^ (1 - dp0).toNat) f.den
  let digit := if d0 = 10 then 1 else d0
  let dp := if d0 = 10 then dp0 + 1 else dp0
  let sign := if f.neg then "-" else ""
  let exp := dp - 1
  if exp < -4 ∨ 1 ≤ exp then
    sign ++ natText digit ++ "E" ++ (if exp < 0 then "-" else "+") ++ padText exp.natAbs 2
  else if 0 < dp then
    sign ++ natText digit
  else
    sign ++ "0." ++ String.mk (List.replicate (-dp).toNat '0') ++ natText digit

/-- Type `time.Time`: the seconds since January 1 of year 1, 00:00:00 UTC, the
nanoseconds within the second, and the offset of its location east of UTC. -/
structure Time where
  sec : Int := 0
  nsec : Nat := 0
  offset : Int := 0
  deriving DecidableEq, Repr

/-- Method `Time.IsZero`. -/
def Time.IsZero (t : Time) : Bool := t.sec = 0 ∧ t.nsec = 0

/-- The civil date (year, month, day) of the day that lies `days` days after
January 1 of year 1, in the proleptic Gregorian calendar. -/
def civil (days : Int) : Int × Nat × Nat :=
  let z := days + 306
  let era := z / 146097
  let doe := (z % 146097).toNat
  let yoe := (doe - doe / 1460 + doe / 36524 - doe / 146096) / 365
  let doy := doe - (365 * yoe + yoe / 4 - yoe / 100)
  let mp := (5 * doy + 2) / 153
  let d := doy - (153 * mp + 2) / 5 + 1
  let m := if mp < 10 then mp + 3 else mp - 9
  let y := (yoe : Int) + era * 400 + (if m ≤ 2 then 1 else 0)
  (y, m, d)

/-- Method `Time.Format` with the layout `2006-01-02 15:04:05`. -/
def Time.Format (t : Time) : String :=
  let wall := t.sec + t.offset
  let date := civil (wall / 86400)
  let s := (wall % 86400).toNat
  (if date.1 < 0 then "-" else "") ++ padText date.1.natAbs 4 ++ "-" ++ padText date.2.1 2
    ++ "-" ++ padText date.2.2 2 ++ " " ++ padText (s / 3600) 2 ++ ":"
    ++ padText (s % 3600 / 60) 2 ++ ":" ++ padText (s % 60) 2

/-! ## The public operations -/

/-- Method `VerifyEmail`. -/
def Client.VerifyEmail (c : Client) (email : String) : Result × List Step :=
  let params : Params := [("email", email)]
  c.callService Emails params

/-- Method `IsEmailVerified`; `none` is a panic inside `isValid`. -/
def Client.IsEmailVerified (c : Client) (email : String) : Option (Bool × Option Err) :=
  let r := c.VerifyEmail email
  c.isValid r.1.1 r.1.2

/-- Method `VerifyPhone`. -/
def Client.VerifyPhone (c : Client) (phone : String) : Result × List Step :=
  let params : Params := [("phone", phone)]
  c.callService Phone params

/-- Method `IsPhoneVerified`; `none` is a panic inside `isValid`. -/
def Client.IsPhoneVerified (c : Client) (phone : String) : Option (Bool × Option Err) :=
  let r := c.VerifyPhone phone
  c.isValid r.1.1 r.1.2

/-- Method `VerifyAddress`. -/
def Client.VerifyAddress (c : Client) (street zip : String) : Result × List Step :=
  let params : Params := [("street", street), ("zip", zip)]
  c.callService Address params

/-- Method `VerifyScoring`. -/
def Client.VerifyScoring (c : Client) (street zip : String) : Result × List Step :=
  let params : Params := [("street", street), ("zip", zip)]
  c.callService Scoring params

/-- The parameter map `VerifyAllServices` fills before it calls the service. -/
def VerifyAllServicesParams (email phone street zip : String) : Params :=
  let params : Params := []
  let params := if email ≠ "" then GoMap.set params "services[email]" email else params
  let params := if phone ≠ "" then GoMap.set params "services[phone]" phone else params
  let params :=
    if street ≠ "" then GoMap.set params "services[address][street]" street else params
  let params := if zip ≠ "" then GoMap.set params "services[address][zip]" zip else params
  params

/-- Method `VerifyAllServices`. -/
def Client.VerifyAllServices (c : Client) (email phone street zip : String) :
    Result × List Step :=
  c.callService AllServices (VerifyAllServicesParams email phone street zip)

/-- Type `PhoneNumber`. -/
structure PhoneNumber where
  CountryCode : String := ""
  PhoneNumber : String := ""
  Code : String := ""
  deriving DecidableEq, Repr

/-- Type `CallOptions`. -/
structure CallOptions where
  RedialCount : Int := 0
  RedialInterval : Duration := 0
  CallPlaceTile : Time := {}
  deriving DecidableEq, Repr

/-- The parameter map `PhonePlaceCall` fills once the required fields are there. -/
def PhonePlaceCallParams (phoneNumber : PhoneNumber) (callOptions : CallOptions) : Params :=
  let params : Params :=
    [("phone", phoneNumber.PhoneNumber), ("country_code", phoneNumber.CountryCode),
     ("code", phoneNumber.Code)]
  let params :=
    if callOptions.RedialCount ≠ 0 then
      GoMap.set params "redial_count" (Itoa callOptions.RedialCount)
    else params
  let params :=
    if (Duration.Seconds callOptions.RedialInterval).num ≠ 0 then
      GoMap.set params "redial_interval" (FormatFloatG0 (Duration.Seconds callOptions.RedialInterval))
    else params
  let params :=
    if ¬ callOptions.CallPlaceTile.IsZero then
      GoMap.set params "call_place_tile" callOptions.CallPlaceTile.Format
    else params
  params

/-- Method `PhonePlaceCall`. -/
def Client.PhonePlaceCall (c : Client) (phoneNumber : PhoneNumber) (callOptions : CallOptions) :
    Result × List Step :=
  if phoneNumber.Code = "" ∨ phoneNumber.PhoneNumber = "" ∨ phoneNumber.CountryCode = "" then
    ((none, some .ErrPhoneCallRequiredFields), [])
  else
    c.callService XVerify.PhonePlaceCall (PhonePlaceCallParams phoneNumber callOptions)

/-- Method `PhoneConfirmCode`. -/
def Client.PhoneConfirmCode (c : Client) (transactionNumber code : String) :
    Result × List Step :=
  let params : Params := [("transaction_number", transactionNumber), ("code", code)]
  c.callService XVerify.PhoneConfirmCode params

/-! ## The fixtures of `xverify_test.go` -/

namespace Test

def apiKey : String := "123456"
def domain : String := "domain.tld"
def defaultType : String := "json"
def validEmail : String := "valid@email.com"
def validPhoneNumber : String := "1234567890"
def validStreet : String := "Sesame street"
def validZip : String := "UX002"
def validCountryCode : String := "01"
def validSecretCode : String := "AB01CD"
def validRedialCount : Int := 3
def validRedialInterval : Duration := 5 * Minute
def validTransactionNumber : String := "123-456-abcd"

/-- The document of the variable `validResponse` (449 bytes of text). The numbers
`0`, `0.0` and `200` are read into the `float64` values 0, 0 and 200. -/
def validResponse : Body :=
  { len := 449,
    doc := .ok (.obj [("wrappernode", .obj
      [("address", .str "address"), ("syntax", .str "syntax"), ("handle", .str "handle"),
       ("domain", .str "domain"), ("error", .num "0"), ("status", .str "valid"),
       ("auto_correct", .obj [("corrected", .str "corrected"), ("address", .str "address")]),
       ("message", .str "message"), ("duration", .num "0"),
       ("catch_all", .str "catch_all"), ("responsecode", .num "200"),
       ("transaction_number", .str "123-456-abcd")])]) }

/-- The document of the variable `inValidResponse` (159 bytes of text). -/
def inValidResponse : Body :=
  { len := 159,
    doc := .ok (.obj [("wrappernode", .obj
      [("status", .str "invalid"), ("message", .str "error occurred"),
       ("error", .str "error occurred"), ("responsecode", .num "503")])]) }

/-- Function `validateMandatoryParams`. -/
def validateMandatoryParams (r : Request) : Bool :=
  r.URL.Query.Get "apikey" = apiKey ∧ r.URL.Query.Get "domain" = domain ∧
    r.URL.Query.Get "type" = defaultType

/-- The common shape of the seven handlers of `setup`: the valid answer with
status 200, unless a mandatory parameter is wrong or `rejected` holds. -/
def handler (r : Request) (rejected : Bool) : HTTPResponse :=
  let ok : Bool := validateMandatoryParams r && !rejected
  { StatusCode := if ok then 200 else 500,
    Body := .ok (if ok then validResponse else inValidResponse) }

/-- The mock server of `setup`, as the transport of the test client. A path that
no handler serves is answered by the mux with `404 page not found`. -/
def server : HTTPClient := fun r =>
  let q := r.URL.Query
  if r.URL.Path = "/email/verify" then
    .ok (handler r (q.Get "email" != validEmail))
  else if r.URL.Path = "/phone/verify" then
    .ok (handler r (q.Get "phone" != validPhoneNumber))
  else if r.URL.Path = "/address/verify" ∨ r.URL.Path = "/scoring/verify" then
    .ok (handler r (q.Get "street" != validStreet && q.Get "zip" != validZip))
  else if r.URL.Path = "/allservices/verify" then
    .ok (handler r (q.Get "services[email]" != validEmail &&
      q.Get "services[phone]" != validPhoneNumber &&
      q.Get "services[address][street]" != validStreet &&
      q.Get "services[address][zip]" != validZip))
  else if r.URL.Path = "/phoneconfirm/placecall/" then
    .ok (handler r (q.Get "phone" != validPhoneNumber &&
      q.Get "country_code" != validCountryCode && q.Get "code" != validSecretCode))
  else if r.URL.Path = "/phoneconfirm/verifycode" then
    .ok (handler r (q.Get "transaction_number" != validTransactionNumber &&
      q.Get "code" != validSecretCode))
  else
    .ok { StatusCode := 404,
          Body := .ok { len := 19, doc := .error "invalid character 'p' after top-level value" } }

/-- The variable `client` of `setup`: `NewWith(server.URL, apiKey, domain, nil)`,
where `server.URL` is `http://127.0.0.1` with the port of the test server. -/
def client : Client :=
  NewWith server
    (.ok { Query := [],
           resolve := fun path =>
             .ok { Scheme := "http", Host := "127.0.0.1", Path := rooted path } })
    apiKey domain none

end Test

/-! ## Further clients and bodies, and a predicate on results -/

/-- A client whose base URL carries a query string of its own, as
`NewWith("http://www.xverify.com/services?env=staging", apiKey, domain, nil)`. -/
def stagingClient : Client :=
  NewWith Test.server
    (.ok { Query := [("env", ["staging"])],
           resolve := fun path =>
             .ok { Scheme := "http", Host := "www.xverify.com", Path := "/services" ++ path } })
    Test.apiKey Test.domain none

/-- A body of no bytes; `encoding/json`, were it asked, would report the end of the
input. -/
def emptyBody : Body := { len := 0, doc := .error "unexpected end of JSON input" }

/-- A client whose server answers every request with the status 503 and no body. -/
def silentClient : Client :=
  NewWith (fun _ => .ok { StatusCode := 503, Body := .ok emptyBody })
    BaseURL Test.apiKey Test.domain none

/-- A body of eleven bytes that is no JSON text, as a gateway writes it. -/
def badGatewayBody : Body :=
  { len := 11, doc := .error "invalid character 'B' looking for beginning of value" }

/-- A client whose server answers every request with the status 502 and the text
`Bad Gateway`. -/
def gatewayClient : Client :=
  NewWith (fun _ => .ok { StatusCode := 502, Body := .ok badGatewayBody })
    BaseURL Test.apiKey Test.domain none

/-- The returned error is not nil exactly when the returned `*Response` is nil. -/
def NilIffError (r : Result) : Prop := r.2 ≠ none ↔ r.1 = none

/-! ## Lemmas on maps -/


theorem GoMap.get?_set {V : Type} (m : GoMap V) (k k' : String) (v : V) :
    GoMap.get? (GoMap.set m k v) k' = if k = k' then some v else GoMap.get? m k' := by
  induction m with
  | nil => simp [GoMap.set, GoMap.get?]
  | cons kv rest ih =>
    obtain ⟨k0, v0⟩ := kv
    by_cases h : k0 = k
    · subst h
      by_cases h' : k0 = k' <;> simp [GoMap.set, GoMap.get?, h']
    · by_cases h' : k0 = k'
      · subst h'
        have h2 : ¬ k = k0 := fun e => h e.symm
        simp [GoMap.set, GoMap.get?, h, h2]
      · simp [GoMap.set, GoMap.get?, h, h', ih]

theorem GoMap.mem_keys_set {V : Type} (m : GoMap V) (k k' : String) (v : V) :
    k' ∈ GoMap.keys (GoMap.set m k v) ↔ k' = k ∨ k' ∈ GoMap.keys m := by
  induction m with
  | nil => simp [GoMap.set, GoMap.keys]
  | cons kv rest ih =>
    obtain ⟨k0, v0⟩ := kv
    by_cases h : k0 = k
    · subst h
      simp [GoMap.set, GoMap.keys]
    · simp only [GoMap.keys] at ih
      simp [GoMap.set, GoMap.keys, h, ih]
      tauto

theorem GoMap.get?_eq_none_iff {V : Type} (m : GoMap V) (k : String) :
    GoMap.get? m k = none ↔ k ∉ GoMap.keys m := by
  induction m with
  | nil => simp [GoMap.get?, GoMap.keys]
  | cons kv rest ih =>
    obtain ⟨k0, v0⟩ := kv
    simp only [GoMap.keys] at ih
    by_cases h : k0 = k
    · subst h
      simp [GoMap.get?, GoMap.keys]
    · have h' : ¬ k = k0 := fun e => h e.symm
      simp [GoMap.get?, GoMap.keys, h, h', ih]

/-- The values `buildURL` ends with: a parameter of the map holds its one value,
any other key is as the base URL has it. -/
theorem get?_range_Set (params : Params) (q : Values) (k : String) :
    GoMap.get? (params.foldr (fun kv acc => Values.Set acc kv.1 kv.2) q) k =
      match GoMap.get? params k with
      | some v => some [v]
      | none => GoMap.get? q k := by
  induction params with
  | nil => simp [GoMap.get?]
  | cons kv rest ih =>
    obtain ⟨k0, v0⟩ := kv
    by_cases h : k0 = k
    · subst h
      simp [Values.Set, GoMap.get?_set, GoMap.get?]
    · simp only [List.foldr_cons, Values.Set, GoMap.get?_set, GoMap.get?, h, if_false]
      simpa [Values.Set] using ih

/-! ## Lemmas on the pipeline -/

/-- The method `GET` is a token. -/
theorem validMethod_GET : validMethod "GET" = true := by decide

/-- What `buildRequest` returns for the method `GET`, by the two parses of the URL. -/
theorem Client.buildRequest_GET (c : Client) (path : String) (params : Params) :
    c.buildRequest "GET" path params =
      match c.baseURL with
      | .error msg => .error (.url msg)
      | .ok u =>
        match u.resolve path with
        | .error msg => .error (.url msg)
        | .ok a =>
          .ok { Method := "GET",
                URL := { Scheme := a.Scheme, Host := a.Host, Path := a.Path,
                         Query := (c.defaultParams params).foldr
                           (fun kv q => Values.Set q kv.1 kv.2) u.Query } } := by
  unfold Client.buildRequest Client.buildURL
  cases hu : c.baseURL with
  | error msg => rfl
  | ok u =>
    have hne : ("GET" : String) ≠ "" := by decide
    simp only [NewRequest, hne, if_false, validMethod_GET, if_true]

/-- A failure of `buildRequest` with the method `GET` is the failure of one of the
two parses of the URL. -/
theorem Client.buildRequest_error (c : Client) (path : String) (params : Params)
    (err : Err) (h : c.buildRequest "GET" path params = .error err) :
    ∃ msg, err = .url msg := by
  rw [c.buildRequest_GET] at h
  cases hu : c.baseURL with
  | error msg => simp [hu] at h; exact ⟨msg, h.symm⟩
  | ok u =>
    cases ha : u.resolve path with
    | error msg => simp [hu, ha] at h; exact ⟨msg, h.symm⟩
    | ok a => simp [hu, ha] at h

/-- A failure of `doRequest` is a failure of the transport or of reading the body. -/
theorem Client.doRequest_error (c : Client) (request : Request) (err : Err)
    (h : c.doRequest request = .error err) : ∃ msg, err = .http msg := by
  unfold Client.doRequest at h
  cases hh : c.httpClient request with
  | error msg => simp [hh] at h; exact ⟨msg, h.symm⟩
  | ok resp =>
    cases hr : resp.Body with
    | error msg => simp [hh, hr] at h; exact ⟨msg, h.symm⟩
    | ok b => simp [hh, hr] at h

theorem Client.callService_build_error (c : Client) (service : ServiceType) (params : Params)
    (err : Err) (hb : c.buildRequest "GET" (Endpoints service).1 params = .error err) :
    c.callService service params =
      ((none, some err), [Step.buildRequest "GET" (Endpoints service).1 params]) := by
  simp only [Client.callService, hb]

theorem Client.callService_do_error (c : Client) (service : ServiceType) (params : Params)
    (request : Request) (err : Err)
    (hb : c.buildRequest "GET" (Endpoints service).1 params = .ok request)
    (hd : c.doRequest request = .error err) :
    c.callService service params =
      ((none, some err),
        [Step.buildRequest "GET" (Endpoints service).1 params, Step.doRequest request]) := by
  simp only [Client.callService, hb, hd]

theorem Client.callService_empty (c : Client) (service : ServiceType) (params : Params)
    (request : Request) (statusCode : Int) (body : Body)
    (hb : c.buildRequest "GET" (Endpoints service).1 params = .ok request)
    (hd : c.doRequest request = .ok (statusCode, body)) (hl : body.len = 0) :
    c.callService service params =
      ((none, some .ErrEmptyResponse),
        [Step.buildRequest "GET" (Endpoints service).1 params, Step.doRequest request]) := by
  simp only [Client.callService, hb, hd, hl, if_true]

theorem Client.callService_parse_error (c : Client) (service : ServiceType) (params : Params)
    (request : Request) (statusCode : Int) (body : Body) (r : Option Response) (err : Err)
    (hb : c.buildRequest "GET" (Endpoints service).1 params = .ok request)
    (hd : c.doRequest request = .ok (statusCode, body)) (hl : body.len ≠ 0)
    (hp : c.parseBody body = (r, some err)) :
    c.callService service params =
      ((none, some err),
        [Step.buildRequest "GET" (Endpoints service).1 params, Step.doRequest request,
          Step.parseBody body]) := by
  simp only [Client.callService, hb, hd, hl, if_false, hp]

theorem Client.callService_parse_ok (c : Client) (service : ServiceType) (params : Params)
    (request : Request) (statusCode : Int) (body : Body) (r : Option Response)
    (hb : c.buildRequest "GET" (Endpoints service).1 params = .ok request)
    (hd : c.doRequest request = .ok (statusCode, body)) (hl : body.len ≠ 0)
    (hp : c.parseBody body = (r, none)) :
    c.callService service params =
      ((r, none),
        [Step.buildRequest "GET" (Endpoints service).1 params, Step.doRequest request,
          Step.parseBody body]) := by
  simp only [Client.callService, hb, hd, hl, if_false, hp]

/-- The shapes of what `parseBody` returns. -/
theorem Client.parseBody_shape (c : Client) (body : Body) :
    (∃ r, c.parseBody body = (some r, none)) ∨
      (c.parseBody body = (none, some .ErrResponseHadEmptyStructure)) ∨
      (∃ msg, c.parseBody body = (none, some (.json msg))) := by
  unfold Client.parseBody
  cases hd : body.doc with
  | error msg => exact Or.inr (Or.inr ⟨msg, rfl⟩)
  | ok doc =>
    cases doc with
    | null => exact Or.inr (Or.inl rfl)
    | bool b => exact Or.inr (Or.inr ⟨_, rfl⟩)
    | num t => exact Or.inr (Or.inr ⟨_, rfl⟩)
    | str t => exact Or.inr (Or.inr ⟨_, rfl⟩)
    | arr t => exact Or.inr (Or.inr ⟨_, rfl⟩)
    | obj members =>
      cases members with
      | nil => exact Or.inr (Or.inl rfl)
      | cons m rest =>
        obtain ⟨k, v⟩ := m
        simp only [unmarshalWrapper, Option.getD, jsonMarshal]
        cases unmarshalResponse v with
        | ok r => exact Or.inl ⟨r, rfl⟩
        | error e => exact Or.inr (Or.inl rfl)

/-- What `callService` returns, by the outcome of each step of the pipeline. -/
theorem Client.callService_cases (c : Client) (service : ServiceType) (params : Params) :
    (∃ msg, (c.callService service params).1 = (none, some (.url msg))) ∨
    (∃ msg, (c.callService service params).1 = (none, some (.http msg))) ∨
    ((c.callService service params).1 = (none, some .ErrEmptyResponse)) ∨
    ((c.callService service params).1 = (none, some .ErrResponseHadEmptyStructure)) ∨
    (∃ msg, (c.callService service params).1 = (none, some (.json msg))) ∨
    (∃ r, (c.callService service params).1 = (some r, none)) := by
  cases hb : c.buildRequest "GET" (Endpoints service).1 params with
  | error err =>
    obtain ⟨msg, rfl⟩ := c.buildRequest_error _ _ _ hb
    rw [c.callService_build_error service params _ hb]
    exact Or.inl ⟨msg, rfl⟩
  | ok request =>
    cases hd : c.doRequest request with
    | error err =>
      obtain ⟨msg, rfl⟩ := c.doRequest_error _ _ hd
      rw [c.callService_do_error service params request _ hb hd]
      exact Or.inr (Or.inl ⟨msg, rfl⟩)
    | ok sb =>
      obtain ⟨statusCode, body⟩ := sb
      by_cases hl : body.len = 0
      · rw [c.callService_empty service params request statusCode body hb hd hl]
        exact Or.inr (Or.inr (Or.inl rfl))
      · rcases c.parseBody_shape body with ⟨r, h⟩ | h | ⟨msg, h⟩
        · rw [c.callService_parse_ok service params request statusCode body _ hb hd hl h]
          exact Or.inr (Or.inr (Or.inr (Or.inr (Or.inr ⟨r, rfl⟩))))
        · rw [c.callService_parse_error service params request statusCode body _ _ hb hd hl h]
          exact Or.inr (Or.inr (Or.inr (Or.inl rfl)))
        · rw [c.callService_parse_error service params request statusCode body _ _ hb hd hl h]
          exact Or.inr (Or.inr (Or.inr (Or.inr (Or.inl ⟨msg, rfl⟩))))

/-- The first step of every service call is building the request. -/
theorem Client.callService_first_step (c : Client) (service : ServiceType) (params : Params) :
    (c.callService service params).2.head? =
      some (Step.buildRequest "GET" (Endpoints service).1 params) := by
  cases hb : c.buildRequest "GET" (Endpoints service).1 params with
  | error err => rw [c.callService_build_error service params _ hb]; rfl
  | ok request =>
    cases hd : c.doRequest request with
    | error err => rw [c.callService_do_error service params request _ hb hd]; rfl
    | ok sb =>
      obtain ⟨statusCode, body⟩ := sb
      by_cases hl : body.len = 0
      · rw [c.callService_empty service params request statusCode body hb hd hl]; rfl
      · rcases c.parseBody_shape body with ⟨r, h⟩ | h | ⟨msg, h⟩
        · rw [c.callService_parse_ok service params request statusCode body _ hb hd hl h]; rfl
        · rw [c.callService_parse_error service params request statusCode body _ _ hb hd hl h]
          rfl
        · rw [c.callService_parse_error service params request statusCode body _ _ hb hd hl h]
          rfl

/-! ## The required fields of `PhonePlaceCall` -/

/-- C1: `PhonePlaceCall` returns nil with `ErrPhoneCallRequiredFields`, and performs no
step of the request pipeline (no request is built, none is issued), when one of
`Code`, `PhoneNumber`, `CountryCode` is empty; it returns that error only then, it
skips the pipeline only then, and with the three fields filled it is the service
call on the parameters it has built, which starts by building the request. -/
theorem PhonePlaceCall_required_fields (c : Client) (phoneNumber : PhoneNumber)
    (callOptions : CallOptions) :
    ((phoneNumber.Code = "" ∨ phoneNumber.PhoneNumber = "" ∨ phoneNumber.CountryCode = "") →
      c.PhonePlaceCall phoneNumber callOptions =
        ((none, some .ErrPhoneCallRequiredFields), [])) ∧
    ((c.PhonePlaceCall phoneNumber callOptions).1 = (none, some .ErrPhoneCallRequiredFields) ↔
      (phoneNumber.Code = "" ∨ phoneNumber.PhoneNumber = "" ∨ phoneNumber.CountryCode = "")) ∧
    ((c.PhonePlaceCall phoneNumber callOptions).2 = [] ↔
      (phoneNumber.Code = "" ∨ phoneNumber.PhoneNumber = "" ∨ phoneNumber.CountryCode = "")) ∧
    ((phoneNumber.Code ≠ "" ∧ phoneNumber.PhoneNumber ≠ "" ∧ phoneNumber.CountryCode ≠ "") →
      c.PhonePlaceCall phoneNumber callOptions =
          c.callService XVerify.PhonePlaceCall (PhonePlaceCallParams phoneNumber callOptions) ∧
        (c.PhonePlaceCall phoneNumber callOptions).1.2 ≠ some .ErrPhoneCallRequiredFields ∧
        (c.PhonePlaceCall phoneNumber callOptions).2.head? =
          some (Step.buildRequest "GET" "/phoneconfirm/placecall/"
            (PhonePlaceCallParams phoneNumber callOptions))) := by
  have hne : ∀ params,
      (c.callService XVerify.PhonePlaceCall params).1.2 ≠ some .ErrPhoneCallRequiredFields := by
    intro params
    rcases c.callService_cases XVerify.PhonePlaceCall params with
      ⟨m, h⟩ | ⟨m, h⟩ | h | h | ⟨m, h⟩ | ⟨r, h⟩ <;> rw [h] <;> simp
  have hhead := c.callService_first_step XVerify.PhonePlaceCall
    (PhonePlaceCallParams phoneNumber callOptions)
  by_cases h : phoneNumber.Code = "" ∨ phoneNumber.PhoneNumber = "" ∨
      phoneNumber.CountryCode = ""
  · have e : c.PhonePlaceCall phoneNumber callOptions =
        ((none, some .ErrPhoneCallRequiredFields), []) := by
      simp only [Client.PhonePlaceCall, h, if_true]
    refine ⟨fun _ => e, ?_, ?_, ?_⟩
    · rw [e]; simp [h]
    · rw [e]; simp [h]
    · intro h'
      exfalso
      rcases h with h | h | h
      · exact h'.1 h
      · exact h'.2.1 h
      · exact h'.2.2 h
  · have e : c.PhonePlaceCall phoneNumber callOptions =
        c.callService XVerify.PhonePlaceCall (PhonePlaceCallParams phoneNumber callOptions) := by
      simp only [Client.PhonePlaceCall, h, if_false]
    refine ⟨fun h' => absurd h' h, ?_, ?_, ?_⟩
    · rw [e]
      constructor
      · intro h'
        exact absurd (congrArg Prod.snd h') (hne _)
      · intro h'; exact absurd h' h
    · rw [e]
      constructor
      · intro h'
        rw [h'] at hhead
        simp at hhead
      · intro h'; exact absurd h' h
    · intro _
      refine ⟨e, ?_, ?_⟩
      · rw [e]; exact hne _
      · rw [e]; exact hhead

/-- C1, at the inputs of the tests: without the code nothing is sent, and with the
three fields of `TestVerifyPlaceCall` the call goes to the pipeline. -/
theorem PhonePlaceCall_required_fields_witness :
    Test.client.PhonePlaceCall { CountryCode := "01", PhoneNumber := "1234567890", Code := "" }
        { RedialCount := 3 } = ((none, some .ErrPhoneCallRequiredFields), []) ∧
      (Test.client.PhonePlaceCall
        { CountryCode := "01", PhoneNumber := "1234567890", Code := "AB01CD" }
        { RedialCount := 3 }).1.2 ≠ some .ErrPhoneCallRequiredFields :=
  ⟨(PhonePlaceCall_required_fields Test.client
      { CountryCode := "01", PhoneNumber := "1234567890", Code := "" } { RedialCount := 3 }).1
      (Or.inl rfl),
   ((PhonePlaceCall_required_fields Test.client
      { CountryCode := "01", PhoneNumber := "1234567890", Code := "AB01CD" }
      { RedialCount := 3 }).2.2.2 (by decide)).2.1⟩

/-! ## The parameters of a request -/

/-- What `buildRequest` leaves under a key of the parameter map. -/
theorem Client.get?_defaultParams (c : Client) (params : Params) (k : String) :
    GoMap.get? (c.defaultParams params) k =
      if k = "type" then some "json"
      else if k = "domain" then some c.domain
      else if k = "apikey" then some c.apiKey
      else GoMap.get? params k := by
  simp only [Client.defaultParams, GoMap.get?_set]
  by_cases h1 : k = "type"
  · subst h1; simp
  · by_cases h2 : k = "domain"
    · subst h2; simp
    · by_cases h3 : k = "apikey"
      · subst h3; simp
      · have e1 : ¬ "type" = k := fun e => h1 e.symm
        have e2 : ¬ "domain" = k := fun e => h2 e.symm
        have e3 : ¬ "apikey" = k := fun e => h3 e.symm
        simp [h1, h2, h3, e1, e2, e3]

/-- C2, as stated, fails for a client whose base URL has a query string: the caller
supplies `email` only, and the request carries `env=staging` next to `email` and
the three mandatory parameters. -/
theorem buildRequest_params_counterexample :
    GoMap.get? ([("email", "valid@email.com")] : Params) "env" = none ∧
      (match stagingClient.buildRequest "GET" "/email/verify" [("email", "valid@email.com")] with
        | .ok request => GoMap.get? request.URL.Query "env"
        | .error _ => none) = some ["staging"] := by
  decide

/-- C2, amended: with the method `GET` of every service call, `buildRequest` returns
a request whenever the base URL parses and `http.NewRequest` can parse the URL built
from it; and every request it returns has the method `GET` and carries `apikey`,
`domain` and `type=json` with the client's values, whatever the caller (or the base
URL) had under those names; every other key of the caller keeps its value; and a key
that is neither mandatory nor supplied by the caller is sent exactly as the query
string of the base URL has it, so with a base URL without a query string no other
key is sent. -/
theorem buildRequest_params (c : Client) (path : String) (params : Params) :
    (∀ u a, c.baseURL = .ok u → u.resolve path = .ok a →
      ∃ request, c.buildRequest "GET" path params = .ok request) ∧
    (∀ request, c.buildRequest "GET" path params = .ok request →
      request.Method = "GET" ∧
      GoMap.get? request.URL.Query "apikey" = some [c.apiKey] ∧
      GoMap.get? request.URL.Query "domain" = some [c.domain] ∧
      GoMap.get? request.URL.Query "type" = some ["json"] ∧
      (∀ k v, k ≠ "apikey" → k ≠ "domain" → k ≠ "type" → GoMap.get? params k = some v →
        GoMap.get? request.URL.Query k = some [v]) ∧
      ∃ u, c.baseURL = .ok u ∧
        (∀ k, k ≠ "apikey" → k ≠ "domain" → k ≠ "type" → GoMap.get? params k = none →
          GoMap.get? request.URL.Query k = GoMap.get? u.Query k) ∧
        (u.Query = [] → ∀ k, k ≠ "apikey" → k ≠ "domain" → k ≠ "type" →
          GoMap.get? params k = none → GoMap.get? request.URL.Query k = none)) := by
  constructor
  · intro u a hu ha
    rw [c.buildRequest_GET, hu]
    simp only [ha]
    exact ⟨_, rfl⟩
  · intro request h
    rw [c.buildRequest_GET] at h
    cases hu : c.baseURL with
    | error msg => simp [hu] at h
    | ok u =>
      cases ha : u.resolve path with
      | error msg => simp [hu, ha] at h
      | ok a =>
        simp only [hu, ha, Except.ok.injEq] at h
        subst h
        refine ⟨rfl, ?_, ?_, ?_, ?_, u, rfl, ?_, ?_⟩
        · simp [get?_range_Set, Client.get?_defaultParams]
        · simp [get?_range_Set, Client.get?_defaultParams]
        · simp [get?_range_Set, Client.get?_defaultParams]
        · intro k v h1 h2 h3 hk
          simp [get?_range_Set, Client.get?_defaultParams, h1, h2, h3, hk]
        · intro k h1 h2 h3 hk
          simp [get?_range_Set, Client.get?_defaultParams, h1, h2, h3, hk]
        · intro hq k h1 h2 h3 hk
          simp [get?_range_Set, Client.get?_defaultParams, h1, h2, h3, hk, hq, GoMap.get?]

/-- C2, amended, at the client of the tests and the parameters of `VerifyEmail`. -/
theorem buildRequest_params_witness :
    Test.client.buildRequest "GET" "/email/verify" [("email", "valid@email.com")] =
        .ok { Method := "GET",
              URL := { Scheme := "http", Host := "127.0.0.1", Path := "/email/verify",
                       Query := [("type", ["json"]), ("domain", ["domain.tld"]),
                                 ("apikey", ["123456"]), ("email", ["valid@email.com"])] } } ∧
      GoMap.get? ([("type", ["json"]), ("domain", ["domain.tld"]), ("apikey", ["123456"]),
        ("email", ["valid@email.com"])] : Values) "apikey" = some ["123456"] :=
  ⟨rfl, ((buildRequest_params Test.client "/email/verify" [("email", "valid@email.com")]).2
    { Method := "GET",
      URL := { Scheme := "http", Host := "127.0.0.1", Path := "/email/verify",
               Query := [("type", ["json"]), ("domain", ["domain.tld"]),
                         ("apikey", ["123456"]), ("email", ["valid@email.com"])] } } rfl).2.1⟩

/-! ## The parameters of `VerifyAllServices` -/

/-- C3: `VerifyAllServices` is the service call on a parameter map that holds
`services[email]`, `services[phone]`, `services[address][street]` and
`services[address][zip]` for exactly the inputs that are not empty, each with its
input as value, and no other key; with only the email and the zip given, the map is
the two entries `services[email]` and `services[address][zip]`. -/
theorem VerifyAllServices_params (c : Client) (email phone street zip : String) :
    c.VerifyAllServices email phone street zip =
        c.callService AllServices (VerifyAllServicesParams email phone street zip) ∧
      GoMap.get? (VerifyAllServicesParams email phone street zip) "services[email]" =
        (if email = "" then none else some email) ∧
      GoMap.get? (VerifyAllServicesParams email phone street zip) "services[phone]" =
        (if phone = "" then none else some phone) ∧
      GoMap.get? (VerifyAllServicesParams email phone street zip) "services[address][street]" =
        (if street = "" then none else some street) ∧
      GoMap.get? (VerifyAllServicesParams email phone street zip) "services[address][zip]" =
        (if zip = "" then none else some zip) ∧
      (∀ k, k ∈ GoMap.keys (VerifyAllServicesParams email phone street zip) →
        k = "services[email]" ∨ k = "services[phone]" ∨ k = "services[address][street]" ∨
          k = "services[address][zip]") ∧
      (email ≠ "" → zip ≠ "" → VerifyAllServicesParams email "" "" zip =
        [("services[email]", email), ("services[address][zip]", zip)]) := by
  refine ⟨rfl, ?_, ?_, ?_, ?_, ?_, ?_⟩
  · by_cases h1 : email = "" <;> by_cases h2 : phone = "" <;> by_cases h3 : street = "" <;>
      by_cases h4 : zip = "" <;>
      simp [VerifyAllServicesParams, GoMap.get?_set, GoMap.get?, h1, h2, h3, h4]
  · by_cases h1 : email = "" <;> by_cases h2 : phone = "" <;> by_cases h3 : street = "" <;>
      by_cases h4 : zip = "" <;>
      simp [VerifyAllServicesParams, GoMap.get?_set, GoMap.get?, h1, h2, h3, h4]
  · by_cases h1 : email = "" <;> by_cases h2 : phone = "" <;> by_cases h3 : street = "" <;>
      by_cases h4 : zip = "" <;>
      simp [VerifyAllServicesParams, GoMap.get?_set, GoMap.get?, h1, h2, h3, h4]
  · by_cases h1 : email = "" <;> by_cases h2 : phone = "" <;> by_cases h3 : street = "" <;>
      by_cases h4 : zip = "" <;>
      simp [VerifyAllServicesParams, GoMap.get?_set, GoMap.get?, h1, h2, h3, h4]
  · intro k hk
    by_contra hne
    simp only [not_or] at hne
    obtain ⟨n1, n2, n3, n4⟩ := hne
    have e1 : ¬ "services[email]" = k := fun e => n1 e.symm
    have e2 : ¬ "services[phone]" = k := fun e => n2 e.symm
    have e3 : ¬ "services[address][street]" = k := fun e => n3 e.symm
    have e4 : ¬ "services[address][zip]" = k := fun e => n4 e.symm
    have hnone : GoMap.get? (VerifyAllServicesParams email phone street zip) k = none := by
      by_cases h1 : email = "" <;> by_cases h2 : phone = "" <;> by_cases h3 : street = "" <;>
        by_cases h4 : zip = "" <;>
        simp [VerifyAllServicesParams, GoMap.get?_set, GoMap.get?, h1, h2, h3, h4, e1, e2, e3, e4]
    exact (GoMap.get?_eq_none_iff _ _).1 hnone hk
  · intro h1 h4
    simp [VerifyAllServicesParams, GoMap.set, h1, h4]

/-- C3, at the email and the zip of the tests. -/
theorem VerifyAllServices_params_witness :
    VerifyAllServicesParams "valid@email.com" "" "" "UX002" =
      [("services[email]", "valid@email.com"), ("services[address][zip]", "UX002")] :=
  (VerifyAllServices_params Test.client "valid@email.com" "" "" "UX002").2.2.2.2.2.2
    (by decide) (by decide)

/-! ## The redial interval of `PhonePlaceCall` -/

/-- C4, at the call of `TestVerifyPlaceCall` (a `RedialInterval` of five minutes):
`strconv.FormatFloat` with the format `G` and the precision 0 keeps one significant
digit, so `redial_interval` is sent as `3E+02` and not as `300`, while `redial_count`,
written by `strconv.Itoa`, is the plain numeral `3`. An interval of 125 seconds is
sent as `1E+02`, one of 5 seconds as `5`. -/
theorem PhonePlaceCall_redial_interval_five_minutes :
    GoMap.get? (PhonePlaceCallParams
        { CountryCode := "01", PhoneNumber := "1234567890", Code := "AB01CD" }
        { RedialCount := 3, RedialInterval := 5 * Minute }) "redial_interval" = some "3E+02" ∧
      GoMap.get? (PhonePlaceCallParams
        { CountryCode := "01", PhoneNumber := "1234567890", Code := "AB01CD" }
        { RedialCount := 3, RedialInterval := 5 * Minute }) "redial_count" = some "3" ∧
      (match Test.client.buildRequest "GET" (Endpoints XVerify.PhonePlaceCall).1
          (PhonePlaceCallParams
            { CountryCode := "01", PhoneNumber := "1234567890", Code := "AB01CD" }
            { RedialCount := 3, RedialInterval := 5 * Minute }) with
        | .ok request => request.URL.Query.Get "redial_interval"
        | .error _ => "") = "3E+02" ∧
      FormatFloatG0 (Duration.Seconds (125 * Second)) = "1E+02" ∧
      FormatFloatG0 (Duration.Seconds (5 * Second)) = "5" := by
  decide

/-! ## The answer of the tests -/

/-- C5, at the body `validResponse` of the tests: its `error` and `duration` are
numbers and the fields `Error` and `Duration` of `Response` are strings, so the
decoding of the nested object fails; `parseBody` returns nil with
`ErrResponseHadEmptyStructure`, `VerifyEmail(validEmail)` against the mock server
returns the same, and `IsEmailVerified(validEmail)` is false with that error. The
body `inValidResponse`, whose `error` is a string, is decoded. -/
theorem parseBody_validResponse :
    Test.client.parseBody Test.validResponse = (none, some .ErrResponseHadEmptyStructure) ∧
      (Test.client.VerifyEmail Test.validEmail).1 =
        (none, some .ErrResponseHadEmptyStructure) ∧
      Test.client.IsEmailVerified Test.validEmail =
        some (false, some .ErrResponseHadEmptyStructure) ∧
      (storeString "" (.num "0")).toOption = none ∧
      ((Test.client.parseBody Test.inValidResponse).1.map fun r => (r.Status, r.Message)) =
        some ("invalid", "error occurred") := by
  decide

/-! ## The validity predicate -/

/-- C6: for a pair (response, err) that is not (nil, nil), `isValid` returns; its
boolean is true exactly when the error is nil and the status is `valid`; with a nil
error the returned error is nil, so any other status gives (false, nil); with an
error the boolean is false and the returned error is not nil. Every pair a service
call returns is such a pair, and `IsEmailVerified` and `IsPhoneVerified` hand
`isValid` the pair of a service call. -/
theorem isValid_spec (c : Client) :
    (∀ (response : Option Response) (err : Option Err), (err = none → response ≠ none) →
      ∃ b e, c.isValid response err = some (b, e) ∧
        (b = true ↔ err = none ∧ ∃ r, response = some r ∧ r.Status = "valid") ∧
        (err = none → e = none) ∧ (err ≠ none → b = false ∧ e ≠ none)) ∧
      (∀ service params, (c.callService service params).1.2 = none →
        (c.callService service params).1.1 ≠ none) ∧
      (∀ email, c.IsEmailVerified email =
        c.isValid (c.callService Emails [("email", email)]).1.1
          (c.callService Emails [("email", email)]).1.2) ∧
      (∀ phone, c.IsPhoneVerified phone =
        c.isValid (c.callService Phone [("phone", phone)]).1.1
          (c.callService Phone [("phone", phone)]).1.2) := by
  refine ⟨?_, ?_, fun _ => rfl, fun _ => rfl⟩
  · intro response err h
    cases err with
    | some err =>
      cases response with
      | some r => exact ⟨false, some (.new r.Message), rfl, by simp, by simp, by simp⟩
      | none => exact ⟨false, some err, rfl, by simp, by simp, by simp⟩
    | none =>
      cases response with
      | some r =>
        refine ⟨decide (r.Status = "valid"), none, rfl, ?_, by simp, by simp⟩
        simp
      | none => exact absurd rfl (h rfl)
  · intro service params h
    rcases c.callService_cases service params with
      ⟨m, e⟩ | ⟨m, e⟩ | e | e | ⟨m, e⟩ | ⟨r, e⟩ <;> rw [e] at h ⊢ <;> simp at h ⊢

/-- C6, at the two emails of the tests: the pair returned for `invalidEmail` has a
nil error and the status `invalid`, and `IsEmailVerified` is (false, nil). -/
theorem isValid_spec_witness :
    (∃ b e, Test.client.isValid (Test.client.VerifyEmail "invalidEmail").1.1
        (Test.client.VerifyEmail "invalidEmail").1.2 = some (b, e) ∧
      (b = true ↔ (Test.client.VerifyEmail "invalidEmail").1.2 = none ∧
        ∃ r, (Test.client.VerifyEmail "invalidEmail").1.1 = some r ∧ r.Status = "valid") ∧
      ((Test.client.VerifyEmail "invalidEmail").1.2 = none → e = none) ∧
      ((Test.client.VerifyEmail "invalidEmail").1.2 ≠ none → b = false ∧ e ≠ none)) ∧
      Test.client.IsEmailVerified "invalidEmail" = some (false, none) :=
  ⟨(isValid_spec Test.client).1 _ _ (by decide), by decide⟩

/-! ## Empty bodies -/

/-- C7: when the request is built and the transport answers with a body of length
zero, whatever the status code, `callService` returns nil with `ErrEmptyResponse`;
the steps it performed are building and sending the request, and no step decodes
the body. -/
theorem callService_empty_body (c : Client) (service : ServiceType) (params : Params)
    (request : Request) (statusCode : Int) (body : Body)
    (hb : c.buildRequest "GET" (Endpoints service).1 params = .ok request)
    (hd : c.doRequest request = .ok (statusCode, body)) (hl : body.len = 0) :
    (c.callService service params).1 = (none, some .ErrEmptyResponse) ∧
      (c.callService service params).2 =
        [Step.buildRequest "GET" (Endpoints service).1 params, Step.doRequest request] ∧
      (∀ b, Step.parseBody b ∉ (c.callService service params).2) ∧
      (∀ msg, (c.callService service params).1.2 ≠ some (.json msg)) ∧
      (c.callService service params).1.2 ≠ some .ErrResponseHadEmptyStructure := by
  rw [c.callService_empty service params request statusCode body hb hd hl]
  simp

/-- C7, at a server that answers 503 with an empty body. -/
theorem callService_empty_body_witness :
    (silentClient.callService Emails [("email", "valid@email.com")]).1 =
      (none, some .ErrEmptyResponse) :=
  (callService_empty_body silentClient Emails [("email", "valid@email.com")]
    { Method := "GET",
      URL := { Scheme := "http", Host := "www.xverify.com", Path := "/services/email/verify",
               Query := [("type", ["json"]), ("domain", ["domain.tld"]),
                         ("apikey", ["123456"]), ("email", ["valid@email.com"])] } }
    503 emptyBody rfl rfl rfl).1

/-! ## Bodies that cannot be decoded -/

/-- C8, as stated, fails for a body that is not JSON text: the error of the service
call is the error of `encoding/json`, not `ErrResponseHadEmptyStructure`. -/
theorem callService_undecodable_counterexample :
    badGatewayBody.len ≠ 0 ∧
      (gatewayClient.VerifyEmail "valid@email.com").1 =
        (none, some (.json "invalid character 'B' looking for beginning of value")) ∧
      (gatewayClient.VerifyEmail "valid@email.com").1.2 ≠
        some .ErrResponseHadEmptyStructure := by
  decide

/-- C8, amended: when the request is built and the transport answers with a body
that is not empty and cannot be decoded, the service call returns nil with an error
that is not `ErrEmptyResponse`. The error is the one `encoding/json` reports when the
body is not JSON text or its document is neither an object nor `null`; it is
`ErrResponseHadEmptyStructure` when the mapping is empty (an object without
members, or `null`) or the value under the first key cannot be decoded into a
`Response`. -/
theorem callService_undecodable (c : Client) (service : ServiceType) (params : Params)
    (request : Request) (statusCode : Int) (body : Body)
    (hb : c.buildRequest "GET" (Endpoints service).1 params = .ok request)
    (hd : c.doRequest request = .ok (statusCode, body)) (hl : body.len ≠ 0) :
    (∀ msg, body.doc = .error msg →
      (c.callService service params).1 = (none, some (.json msg))) ∧
    (∀ doc, body.doc = .ok doc → doc ≠ .null → (∀ members, doc ≠ .obj members) →
      ∃ msg, (c.callService service params).1 = (none, some (.json msg))) ∧
    ((body.doc = .ok .null ∨ body.doc = .ok (.obj [])) →
      (c.callService service params).1 = (none, some .ErrResponseHadEmptyStructure)) ∧
    (∀ key value rest err, body.doc = .ok (.obj ((key, value) :: rest)) →
      unmarshalResponse value = .error err →
      (c.callService service params).1 = (none, some .ErrResponseHadEmptyStructure)) ∧
    (c.callService service params).1.2 ≠ some .ErrEmptyResponse ∧
    Err.ErrResponseHadEmptyStructure ≠ Err.ErrEmptyResponse := by
  refine ⟨?_, ?_, ?_, ?_, ?_, by decide⟩
  · intro msg hdoc
    have hp : c.parseBody body = (none, some (.json msg)) := by
      simp only [Client.parseBody, hdoc]
    rw [c.callService_parse_error service params request statusCode body _ _ hb hd hl hp]
  · intro doc hdoc hnull hobj
    have hp : ∃ msg, c.parseBody body = (none, some (.json msg)) := by
      cases doc with
      | null => exact absurd rfl hnull
      | obj members => exact absurd rfl (hobj members)
      | bool b => exact ⟨_, by simp only [Client.parseBody, hdoc, unmarshalWrapper]; rfl⟩
      | num t => exact ⟨_, by simp only [Client.parseBody, hdoc, unmarshalWrapper]; rfl⟩
      | str t => exact ⟨_, by simp only [Client.parseBody, hdoc, unmarshalWrapper]; rfl⟩
      | arr t => exact ⟨_, by simp only [Client.parseBody, hdoc, unmarshalWrapper]; rfl⟩
    obtain ⟨msg, hp⟩ := hp
    exact ⟨msg, by
      rw [c.callService_parse_error service params request statusCode body _ _ hb hd hl hp]⟩
  · intro hdoc
    have hp : c.parseBody body = (none, some .ErrResponseHadEmptyStructure) := by
      rcases hdoc with hdoc | hdoc <;>
        simp only [Client.parseBody, hdoc, unmarshalWrapper, Option.getD]
    rw [c.callService_parse_error service params request statusCode body _ _ hb hd hl hp]
  · intro key value rest err hdoc hv
    have hp : c.parseBody body = (none, some .ErrResponseHadEmptyStructure) := by
      simp only [Client.parseBody, hdoc, unmarshalWrapper, Option.getD, jsonMarshal, hv]
    rw [c.callService_parse_error service params request statusCode body _ _ hb hd hl hp]
  · rcases c.parseBody_shape body with ⟨r, h⟩ | h | ⟨msg, h⟩
    · rw [c.callService_parse_ok service params request statusCode body _ hb hd hl h]
      simp
    · rw [c.callService_parse_error service params request statusCode body _ _ hb hd hl h]
      simp
    · rw [c.callService_parse_error service params request statusCode body _ _ hb hd hl h]
      simp

/-- C8, amended, at the body `validResponse` of the tests, whose nested object
cannot be decoded into a `Response`: the error is `ErrResponseHadEmptyStructure`. -/
theorem callService_undecodable_witness :
    (Test.client.callService Emails [("email", "valid@email.com")]).1 =
      (none, some .ErrResponseHadEmptyStructure) :=
  (callService_undecodable Test.client Emails [("email", "valid@email.com")]
    { Method := "GET",
      URL := { Scheme := "http", Host := "127.0.0.1", Path := "/email/verify",
               Query := [("type", ["json"]), ("domain", ["domain.tld"]),
                         ("apikey", ["123456"]), ("email", ["valid@email.com"])] } }
    200 Test.validResponse rfl rfl (by decide)).2.2.2.1 _ _ _
    (.json "json: cannot unmarshal number into Go value of type string") rfl rfl

/-! ## Results and errors -/

theorem Client.callService_nilIffError (c : Client) (service : ServiceType) (params : Params) :
    NilIffError (c.callService service params).1 := by
  unfold NilIffError
  rcases c.callService_cases service params with
    ⟨m, e⟩ | ⟨m, e⟩ | e | e | ⟨m, e⟩ | ⟨r, e⟩ <;> rw [e] <;> simp

/-- C9: whatever `callService` returns, its error is not nil exactly when its
`*Response` is nil, and so it is for each public operation, the early return of
`PhonePlaceCall` included; when `parseBody` fails, the call returns nil with the
error of `parseBody`, and the `Response` built from the status code and the error
text is not returned. -/
theorem callService_error_iff_nil (c : Client) :
    (∀ service params, NilIffError (c.callService service params).1) ∧
    (∀ email, NilIffError (c.VerifyEmail email).1) ∧
    (∀ phone, NilIffError (c.VerifyPhone phone).1) ∧
    (∀ street zip, NilIffError (c.VerifyAddress street zip).1) ∧
    (∀ street zip, NilIffError (c.VerifyScoring street zip).1) ∧
    (∀ email phone street zip, NilIffError (c.VerifyAllServices email phone street zip).1) ∧
    (∀ phoneNumber callOptions, NilIffError (c.PhonePlaceCall phoneNumber callOptions).1) ∧
    (∀ transactionNumber code, NilIffError (c.PhoneConfirmCode transactionNumber code).1) ∧
    (∀ service params request statusCode body r err,
      c.buildRequest "GET" (Endpoints service).1 params = .ok request →
      c.doRequest request = .ok (statusCode, body) → body.len ≠ 0 →
      c.parseBody body = (r, some err) →
      (c.callService service params).1 = (none, some err)) := by
  refine ⟨c.callService_nilIffError, fun _ => c.callService_nilIffError _ _,
    fun _ => c.callService_nilIffError _ _, fun _ _ => c.callService_nilIffError _ _,
    fun _ _ => c.callService_nilIffError _ _, fun _ _ _ _ => c.callService_nilIffError _ _,
    ?_, fun _ _ => c.callService_nilIffError _ _, ?_⟩
  · intro phoneNumber callOptions
    unfold Client.PhonePlaceCall
    split
    · simp [NilIffError]
    · exact c.callService_nilIffError _ _
  · intro service params request statusCode body r err hb hd hl hp
    rw [c.callService_parse_error service params request statusCode body r err hb hd hl hp]

/-- C9, at the body `validResponse` of the tests, which `parseBody` rejects: the
call returns nil with the error. -/
theorem callService_error_iff_nil_witness :
    (Test.client.callService Emails [("email", "valid@email.com")]).1 =
      (none, some .ErrResponseHadEmptyStructure) :=
  (callService_error_iff_nil Test.client).2.2.2.2.2.2.2.2 Emails
    [("email", "valid@email.com")]
    { Method := "GET",
      URL := { Scheme := "http", Host := "127.0.0.1", Path := "/email/verify",
               Query := [("type", ["json"]), ("domain", ["domain.tld"]),
                         ("apikey", ["123456"]), ("email", ["valid@email.com"])] } }
    200 Test.validResponse none .ErrResponseHadEmptyStructure rfl rfl (by decide) rfl

/-! ## The wrapper key -/

/-- C10: `parseBody` does not read the name of the wrapper key: for every value `v`
and every two keys, the bodies `{k1: v}` and `{k2: v}` (of whatever lengths) give the
same `*Response` and the same error; the result is a function of `v` alone. -/
theorem parseBody_wrapper_key (c : Client) (k1 k2 : String) (v : JSON) (len1 len2 : Nat) :
    c.parseBody { len := len1, doc := .ok (.obj [(k1, v)]) } =
        c.parseBody { len := len2, doc := .ok (.obj [(k2, v)]) } ∧
      c.parseBody { len := len1, doc := .ok (.obj [(k1, v)]) } =
        (match unmarshalResponse v with
          | .ok response => (some response, none)
          | .error _ => (none, some .ErrResponseHadEmptyStructure)) := by
  constructor <;> rfl

/-! ## Service kinds outside the table -/

/-- The service path is all that `callService` takes from the service kind. -/
theorem Client.callService_path (c : Client) (service service' : ServiceType) (params : Params)
    (h : (Endpoints service).1 = (Endpoints service').1) :
    c.callService service params = c.callService service' params := by
  simp only [Client.callService, h]

/-- C11, as stated, fails at the service kind 8, which the `Endpoints` table does not
hold: `callService` drops the flag of the table lookup, builds the request with the
empty path, sends it and decodes the answer (here the `404 page not found` of the
mock server, which is no JSON text); the error it returns is the one of
`encoding/json`, not `ErrServiceDoesNotExist`. -/
theorem callService_unknown_service_counterexample :
    Endpoints 8 = ("", false) ∧
      (Test.client.callService 8 [("email", "valid@email.com")]).1 =
        (none, some (.json "invalid character 'p' after top-level value")) ∧
      (Test.client.callService 8 [("email", "valid@email.com")]).1.2 ≠
        some .ErrServiceDoesNotExist ∧
      (Test.client.callService 8 [("email", "valid@email.com")]).2.map Step.name =
        ["buildRequest", "doRequest", "parseBody"] := by
  decide

/-- C11, amended: a service kind is missing from the `Endpoints` table exactly when
it is none of the seven constants; for such a kind `callService` reads the empty
path and runs the pipeline as for any other kind, starting with the request it
builds for the empty path, so that all kinds outside the table give the same
outcome; and for no service kind at all does `callService` return
`ErrServiceDoesNotExist`. -/
theorem callService_unknown_service (c : Client) (service : ServiceType) (params : Params) :
    ((Endpoints service).2 = false ↔
      service ∉ [Phone, Emails, Address, Scoring, AllServices, XVerify.PhonePlaceCall,
        XVerify.PhoneConfirmCode]) ∧
    ((Endpoints service).2 = false →
      (Endpoints service).1 = "" ∧
        (c.callService service params).2.head? = some (Step.buildRequest "GET" "" params) ∧
        c.callService service params = c.callService 0 params) ∧
    (c.callService service params).1.2 ≠ some .ErrServiceDoesNotExist := by
  have hpath : (Endpoints service).2 = false → (Endpoints service).1 = "" := by
    unfold Endpoints
    split_ifs <;> simp
  refine ⟨?_, ?_, ?_⟩
  · unfold Endpoints
    split_ifs <;> simp_all
  · intro h
    have hp := hpath h
    refine ⟨hp, ?_, ?_⟩
    · rw [← hp]
      exact c.callService_first_step service params
    · exact c.callService_path service 0 params (by rw [hp]; decide)
  · rcases c.callService_cases service params with
      ⟨m, h⟩ | ⟨m, h⟩ | h | h | ⟨m, h⟩ | ⟨r, h⟩ <;> rw [h] <;> simp

/-- C11, amended, at the service kind 8 and the client of the tests. -/
theorem callService_unknown_service_witness :
    (Endpoints 8).1 = "" ∧
      (Test.client.callService 8 [("email", "valid@email.com")]).2.head? =
        some (Step.buildRequest "GET" "" [("email", "valid@email.com")]) ∧
      Test.client.callService 8 [("email", "valid@email.com")] =
        Test.client.callService 0 [("email", "valid@email.com")] :=
  (callService_unknown_service Test.client 8 [("email", "valid@email.com")]).2.1 (by decide)

end XVerify
